import Mathlib

/-!
Shallow embedding of `radio.py` (rpi-radio-alarm): the persistent config
store (`PersistentConfig`), the playback controller (`Radio`), the alarm
scheduler (`AlarmResource.run` / `AlarmResource.check_time`) and the HTTP
handlers (`RadioResource.on_get`, `AlarmResource.on_post`,
`RadioResource.__init__`), together with proofs about them.
-/

namespace RpiRadioAlarm

/-- JSON-like values, the shape of the configuration document and of
request bodies (`json.load` / `json.loads` results). -/
inductive JVal where
  | obj : List (String × JVal) → JVal
  | arr : List JVal → JVal
  | str : String → JVal
  | num : Int → JVal
  | bool : Bool → JVal
  | null : JVal
deriving Repr

/-- Python exceptions that the embedded code can raise. -/
inductive PyErr where
  | typeError
  | valueError
  | keyError (key : String)
  | attributeError
  | httpError (code : Nat)
  | raiseNonException
deriving Repr, DecidableEq

/-- `d is None` in Python. -/
def JVal.isNull : JVal → Bool
  | .null => true
  | _ => false

/-- Python truthiness (`if x:`) of a JSON value. -/
def truthy : JVal → Bool
  | .bool b => b
  | .null => false
  | .num n => n != 0
  | .str s => s != ""
  | .arr l => !l.isEmpty
  | .obj l => !l.isEmpty

/-- First-match lookup in a JSON object (Python dict indexing, keys unique). -/
def lookupKey : List (String × JVal) → String → Option JVal
  | [], _ => none
  | (k', v') :: rest, k => if k' = k then some v' else lookupKey rest k

/-- Python dict assignment `d[k] = v`: replace the binding if the key is
present, append it otherwise. -/
def setKey : List (String × JVal) → String → JVal → List (String × JVal)
  | [], k, v => [(k, v)]
  | (k', v') :: rest, k, v =>
      if k' = k then (k, v) :: rest else (k', v') :: setKey rest k v

/-- `PersistentConfig.get(key)`: the path is `key.split("/")`; each segment
indexes the current value (`ret_value = ret_value[key_part]`).  A missing
dict key raises `KeyError`; indexing a non-dict with a string segment
raises `TypeError`. -/
def getPath : JVal → List String → Except PyErr JVal
  | v, [] => .ok v
  | .obj l, k :: rest =>
      match lookupKey l k with
      | some v => getPath v rest
      | none => .error (PyErr.keyError k)
  | _, _ :: _ => .error PyErr.typeError

/-- `PersistentConfig.set(key, value)`: traverses `key_parts[:-1]` to reach
the parent (same failure modes as `get`), then assigns at the last segment
(`old_value[key_parts[-1]] = value`) and saves.  Returns the updated
document.  (`key.split("/")` is never empty, so the `[]` case is
unreachable from the Python code.) -/
def setPath : JVal → List String → JVal → Except PyErr JVal
  | .obj l, [k], v => .ok (JVal.obj (setKey l k v))
  | .obj l, k :: k2 :: rest, v =>
      match lookupKey l k with
      | some child =>
          match setPath child (k2 :: rest) v with
          | .ok c => .ok (JVal.obj (setKey l k c))
          | .error e => .error e
      | none => .error (PyErr.keyError k)
  | _, [], _ => .error PyErr.valueError
  | _, _ :: _, _ => .error PyErr.typeError

/-- `PersistentConfig.DEFAULT_CONFIG`: two example alarms, playing false. -/
def DEFAULT_CONFIG : JVal :=
  JVal.obj
    [("alarms", JVal.arr
        [JVal.obj [("name", JVal.str "work"), ("days", JVal.arr [JVal.num 1]),
                   ("on", JVal.bool false), ("hour", JVal.num 5), ("min", JVal.num 55)],
         JVal.obj [("name", JVal.str "normal"),
                   ("days", JVal.arr [JVal.num 2, JVal.num 3, JVal.num 4, JVal.num 5, JVal.num 6]),
                   ("on", JVal.bool false), ("hour", JVal.num 7), ("min", JVal.num 55)]]),
     ("radio", JVal.obj [("playing", JVal.bool false)])]

/-- Outcome of the `json.load` attempt in `PersistentConfig.__init__`:
the file is absent (`FileNotFoundError`), present but not valid JSON
(`json.JSONDecodeError`, a subclass of `ValueError`), or parsed to `d`. -/
inductive LoadResult where
  | notFound
  | unreadable
  | ok (d : JVal)

/-- `PersistentConfig.__init__`: `try: json.load` with
`except FileNotFoundError: self._config = None`; then `None` is replaced
by `DEFAULT_CONFIG`, and `self.save()` runs unconditionally.  Returns the
in-memory document together with the list of documents written to disk;
an uncaught exception is an `error`.  Only `FileNotFoundError` is caught:
a present-but-unreadable file propagates `ValueError`. -/
def pcInit : LoadResult → Except PyErr (JVal × List JVal)
  | .notFound => .ok (DEFAULT_CONFIG, [DEFAULT_CONFIG])
  | .unreadable => .error PyErr.valueError
  | .ok d => if d.isNull then .ok (DEFAULT_CONFIG, [DEFAULT_CONFIG]) else .ok (d, [d])

/-- State of the `Radio` playback controller: `none` is `self.process is
None`; `some alive` is a launched process whose `poll()` is `None` exactly
when `alive`. -/
structure RadioState where
  process : Option Bool
deriving Repr, DecidableEq

/-- `Radio.is_playing`: `self.process is not None and self.process.poll() is None`. -/
def is_playing (s : RadioState) : Bool :=
  match s.process with
  | some alive => alive
  | none => false

/-- `Radio.start_playing`: `subprocess.Popen(...)` only when not playing. -/
def start_playing (s : RadioState) : RadioState :=
  if is_playing s then s else { process := some true }

/-- `Radio.stop_playing`: `self.process.terminate()` only when playing. -/
def stop_playing (s : RadioState) : RadioState :=
  if is_playing s then { process := some false } else s

/-- Number of live external playback processes held by the controller. -/
def liveSessions (s : RadioState) : Nat :=
  if is_playing s then 1 else 0

/-- A wall-clock reading of `datetime.datetime.now()`: `weekday()`
(0 = Monday) and the `time()` components compared by `check_time`. -/
structure Now where
  weekday : Int
  hour : Int
  minute : Int
  second : Int
deriving Repr, DecidableEq

/-- `datetime.time(h, m)`: `ValueError` when the hour is outside `[0, 23]`
or the minute outside `[0, 59]`. -/
def mkTime (h m : Int) : Except PyErr (Int × Int) :=
  if h < 0 ∨ 23 < h then .error PyErr.valueError
  else if m < 0 ∨ 59 < m then .error PyErr.valueError
  else .ok (h, m)

/-- Lexicographic `<=` on `datetime.time` triples (hour, minute, second). -/
def timeLE (h1 m1 s1 h2 m2 s2 : Int) : Bool :=
  decide (h1 < h2) ||
    (decide (h1 = h2) &&
      (decide (m1 < m2) || (decide (m1 = m2) && decide (s1 ≤ s2))))

/-- `now.weekday() in days`: membership when `days` is a list, key
membership (always false, keys being strings) when it is a dict,
`TypeError` otherwise (`in` on `None`, a number or a string). -/
def memDays (w : Int) : JVal → Except PyErr Bool
  | .arr l => .ok (l.any fun v =>
      match v with
      | .num n => n == w
      | .bool b => (if b then (1 : Int) else 0) == w
      | _ => false)
  | .obj _ => .ok false
  | _ => .error PyErr.typeError

/-- `AlarmResource.check_time(hour, minutes, days)` with integer hour and
minutes: builds `start = datetime.time(hour, minutes)`, computes the end
per the source (`endmin = minutes + 10` when `minutes + 10 < 60`, else
`endmin = 60 - minutes + 10` and `endhour = hour + 1`), builds
`end = datetime.time(endhour, endmin)`, and returns
`(start <= now.time() <= end) and (now.weekday() in days)` with Python
short-circuiting. -/
def check_time (hour minutes : Int) (days : JVal) (now : Now) : Except PyErr Bool := do
  let s ← mkTime hour minutes
  let endhour : Int := if minutes + 10 < 60 then hour else hour + 1
  let endmin : Int := if minutes + 10 < 60 then minutes + 10 else 60 - minutes + 10
  let e ← mkTime endhour endmin
  if timeLE s.1 s.2 0 now.hour now.minute now.second &&
      timeLE now.hour now.minute now.second e.1 e.2 0 then
    memDays now.weekday days
  else
    .ok false

/-- Conversion applied by `datetime.time` to its arguments: integers (and
bools, a subclass of int) pass through, anything else — `None` included —
raises `TypeError`. -/
def asTimeArg : JVal → Except PyErr Int
  | .num n => .ok n
  | .bool b => .ok (if b then 1 else 0)
  | _ => .error PyErr.typeError

/-- `alarm.get(k)` on a Python dict: the value, or `None` when absent. -/
def alarmPyGet (a : List (String × JVal)) (k : String) : JVal :=
  (lookupKey a k).getD JVal.null

/-- `check_time` as called from the loop, on raw `alarm.get(...)` values:
`datetime.time` first converts `hour` and `minutes` (raising `TypeError`
on `None` or a non-int). -/
def check_time_raw (hour minutes days : JVal) (now : Now) : Except PyErr Bool := do
  let h ← asTimeArg hour
  let m ← asTimeArg minutes
  check_time h m days now

/-- The alarm scan of `AlarmResource.run`: `radio_should_be_playing =
False`; for each alarm, if `alarm.get('on')` is truthy evaluate
`check_time` and `break` on the first match.  A non-dict list element
raises `AttributeError` at `alarm.get`; exceptions from `check_time`
propagate — the loop body has no `try`. -/
def evalAlarms (now : Now) : List JVal → Except PyErr Bool
  | [] => .ok false
  | JVal.obj a :: rest =>
      if truthy (alarmPyGet a "on") then do
        let play ← check_time_raw (alarmPyGet a "hour") (alarmPyGet a "min")
          (alarmPyGet a "days") now
        if play then .ok true else evalAlarms now rest
      else evalAlarms now rest
  | _ :: _ => .error PyErr.attributeError

/-- A playback-controller method invocation commanded by the code. -/
inductive Cmd where
  | start
  | stop
deriving Repr, DecidableEq

/-- The edge-triggered tail of the loop body (lines 150–157): given the
computed `radio_should_be_playing` and `self.last_should_be_playing`,
returns the new `last_should_be_playing` and the commands issued —
`start_playing` on a false-to-true change, `stop_playing` on a
true-to-false change, nothing otherwise. -/
def edgeStep (should last : Bool) : Bool × List Cmd :=
  if should && !last then (should, [Cmd.start])
  else if !should && last then (should, [Cmd.stop])
  else (last, [])

/-- One full tick of `AlarmResource.run`: evaluate the alarm list, then
edge-trigger. -/
def tickStep (alarms : List JVal) (now : Now) (last : Bool) :
    Except PyErr (Bool × List Cmd) := do
  let should ← evalAlarms now alarms
  .ok (edgeStep should last)

/-- The edge-trigger logic over a sequence of computed per-tick values,
threading `last_should_be_playing` (initially `False`) and collecting the
commands issued. -/
def processTicks : List Bool → Bool → List Cmd × Bool
  | [], last => ([], last)
  | s :: rest, last =>
      let step := edgeStep s last
      let tail := processTicks rest step.1
      (step.2 ++ tail.1, tail.2)

/-- The `while not self.thread_should_exit` loop of `AlarmResource.run`,
one entry of `nows` per tick: an exception on any tick propagates out of
`run` (there is no handler), ending the thread; otherwise the final
`last_should_be_playing` is returned when the exit flag stops the loop. -/
def runLoop (alarms : List JVal) (last : Bool) : List Now → Except PyErr Bool
  | [] => .ok last
  | now :: rest => do
      let step ← tickStep alarms now last
      runLoop alarms step.1 rest

/-- State seen by `RadioResource`: the playback controller and the
persisted intent `config['radio']['playing']`. -/
structure RRState where
  radio : RadioState
  intent : Bool
deriving Repr, DecidableEq

/-- `RadioResource.on_get(action)`: `start` / `stop` toggle the controller
and persist the intent; `status` answers from `self.radio.is_playing()`
alone; any other action raises `falcon.HTTPError(falcon.HTTP_404)`.
Returns the JSON body and the new state. -/
def radio_on_get (s : RRState) (action : String) : Except PyErr (JVal × RRState) :=
  if action = "start" then
    if is_playing s.radio then
      .ok (JVal.obj [("status", JVal.str "already started")], ⟨s.radio, true⟩)
    else
      .ok (JVal.obj [("status", JVal.str "ok let\x27s start this")],
        ⟨start_playing s.radio, true⟩)
  else if action = "stop" then
    if is_playing s.radio then
      .ok (JVal.obj [("status", JVal.str "ok let\x27s stop this")],
        ⟨stop_playing s.radio, false⟩)
    else
      .ok (JVal.obj [("status", JVal.str "already stopped")], ⟨s.radio, false⟩)
  else if action = "status" then
    .ok (JVal.obj [("status", JVal.str (if is_playing s.radio then "started" else "stopped"))], s)
  else
    .error (PyErr.httpError 404)

/-- `RadioResource.__init__`: reads `config.get('radio/playing')` and
calls `self.radio.start_playing()` when it is truthy.  Returns the
controller state and the commands issued. -/
def radioResourceInit (cfg : JVal) (r : RadioState) :
    Except PyErr (RadioState × List Cmd) := do
  let v ← getPath cfg ["radio", "playing"]
  if truthy v then .ok (start_playing r, [Cmd.start]) else .ok (r, [])

/-- `len(x)` in Python: defined for lists, strings and dicts, `TypeError`
otherwise. -/
def pyLen : JVal → Except PyErr Int
  | .arr l => .ok l.length
  | .str s => .ok s.length
  | .obj l => .ok l.length
  | _ => .error PyErr.typeError

/-- Python dict subscript `a[k]`: `KeyError` when absent. -/
def lookupItem (a : List (String × JVal)) (k : String) : Except PyErr JVal :=
  match lookupKey a k with
  | some v => .ok v
  | none => .error (PyErr.keyError k)

/-- The validation condition of `AlarmResource.on_post` for `action ==
"new"`, evaluated left to right with Python short-circuit `or`: each
`new_alarm['field']` raises `KeyError` when the field is absent; returns
whether the condition (any field `is None`, or `len(days) < 1`) is true. -/
def validateNewAlarm (a : List (String × JVal)) : Except PyErr Bool := do
  let name ← lookupItem a "name"
  if name.isNull then .ok true else do
  let onv ← lookupItem a "on"
  if onv.isNull then .ok true else do
  let days ← lookupItem a "days"
  if days.isNull then .ok true else do
  let n ← pyLen days
  if n < 1 then .ok true else do
  let hour ← lookupItem a "hour"
  if hour.isNull then .ok true else do
  let minv ← lookupItem a "min"
  .ok minv.isNull

/-- `AlarmResource.on_post` for `action == "new"`: `new_alarm =
result['Alarm']`; when the validation condition holds the code executes
`raise falcon.HTTP_400` — `falcon.HTTP_400` is the *string* `'400 Bad
Request'`, and raising a non-exception is a `TypeError` in Python 3
(modelled as `raiseNonException`); otherwise the alarm is appended and
the list persisted via `config.set('alarms', alarms)`.  Returns the
persisted alarm list. -/
def on_post_new (body : JVal) (alarms : List JVal) : Except PyErr (List JVal) := do
  let newAlarm ← match body with
    | JVal.obj b => lookupItem b "Alarm"
    | _ => .error PyErr.typeError
  let a ← match newAlarm with
    | JVal.obj a => .ok a
    | _ => .error PyErr.typeError
  let bad ← validateNewAlarm a
  if bad then .error PyErr.raiseNonException
  else .ok (alarms ++ [JVal.obj a])

/-! Theorems -/

theorem exceptBind_ok {α β ε : Type} (a : α) (f : α → Except ε β) :
    (Except.ok a >>= f) = f a := rfl

theorem exceptBind_err {α β ε : Type} (e : ε) (f : α → Except ε β) :
    ((Except.error e : Except ε α) >>= f : Except ε β) = Except.error e := rfl

theorem lookupKey_setKey (l : List (String × JVal)) (k : String) (v : JVal) :
    lookupKey (setKey l k v) k = some v := by
  induction l with
  | nil => simp [setKey, lookupKey]
  | cons kv rest ih =>
    obtain ⟨k', v'⟩ := kv
    by_cases h : k' = k
    · simp [setKey, lookupKey, h]
    · simp [setKey, lookupKey, h, ih]

/-- Claim C1: in `check_time`, the claimed window for an alarm at
`hour = 7, minute = 55` ends at `08:05`; the code instead computes
`endmin = 60 - minutes + 10 = 15`, i.e. a window `[07:55, 08:15]`: at
`08:10` and `08:15` on a matching weekday it still returns true, and only
after `08:15` does it return false — contradicting both the claim and the
source's own `# Play for 10 minutes` comment. -/
theorem check_time_actual_window :
    check_time 7 55 (JVal.arr [JVal.num 0]) ⟨0, 8, 10, 0⟩ = .ok true ∧
    check_time 7 55 (JVal.arr [JVal.num 0]) ⟨0, 8, 15, 0⟩ = .ok true ∧
    check_time 7 55 (JVal.arr [JVal.num 0]) ⟨0, 8, 16, 0⟩ = .ok false :=
  ⟨rfl, rfl, rfl⟩

theorem processTicks_append (xs ys : List Bool) (l : Bool) :
    processTicks (xs ++ ys) l =
      ((processTicks xs l).1 ++ (processTicks ys (processTicks xs l).2).1,
       (processTicks ys (processTicks xs l).2).2) := by
  induction xs generalizing l with
  | nil => simp [processTicks]
  | cons x xs ih => simp [processTicks, ih]

theorem processTicks_false_false (n : Nat) :
    processTicks (List.replicate n false) false = ([], false) := by
  induction n with
  | zero => rfl
  | succ n ih => simp [List.replicate_succ, processTicks, edgeStep, ih]

theorem processTicks_true_true (n : Nat) :
    processTicks (List.replicate n true) true = ([], true) := by
  induction n with
  | zero => rfl
  | succ n ih => simp [List.replicate_succ, processTicks, edgeStep, ih]

theorem processTicks_true_false (n : Nat) (h : 1 ≤ n) :
    processTicks (List.replicate n true) false = ([Cmd.start], true) := by
  cases n with
  | zero => omega
  | succ m => simp [List.replicate_succ, processTicks, edgeStep, processTicks_true_true]

theorem processTicks_false_true (n : Nat) (h : 1 ≤ n) :
    processTicks (List.replicate n false) true = ([Cmd.stop], false) := by
  cases n with
  | zero => omega
  | succ m => simp [List.replicate_succ, processTicks, edgeStep, processTicks_false_false]

/-- Claim C2: the scheduler tick is edge-triggered — a command is issued
exactly when the computed should-be-playing value differs from the
previous tick's value (`start` on false-to-true, `stop` on true-to-false,
nothing when unchanged), and over a tick sequence spanning one alarm
window (some ticks before, inside, and after it) the command stream is
exactly one `start` followed by exactly one `stop`. -/
theorem scheduler_edge_trigger :
    (∀ should last : Bool,
      ((edgeStep should last).2 = [Cmd.start] ↔ should = true ∧ last = false) ∧
      ((edgeStep should last).2 = [Cmd.stop] ↔ should = false ∧ last = true) ∧
      ((edgeStep should last).2 = [] ↔ should = last) ∧
      ∀ (alarms : List JVal) (now : Now),
        evalAlarms now alarms = .ok should →
        tickStep alarms now last = .ok (edgeStep should last)) ∧
    (∀ a b c : Nat, 1 ≤ b → 1 ≤ c →
      (processTicks (List.replicate a false ++ (List.replicate b true ++
        List.replicate c false)) false).1 = [Cmd.start, Cmd.stop]) := by
  constructor
  · intro should last
    refine ⟨?_, ?_, ?_, ?_⟩
    · cases should <;> cases last <;> decide
    · cases should <;> cases last <;> decide
    · cases should <;> cases last <;> decide
    · intro alarms now h
      simp [tickStep, h, exceptBind_ok]
  · intro a b c hb hc
    rw [processTicks_append, processTicks_append,
      processTicks_false_false, processTicks_true_false b hb]
    simp [processTicks_false_true c hc]

theorem scheduler_edge_trigger_witness :
    tickStep [] ⟨0, 0, 0, 0⟩ false = .ok (edgeStep false false) ∧
    (processTicks (List.replicate 2 false ++ (List.replicate 3 true ++
      List.replicate 2 false)) false).1 = [Cmd.start, Cmd.stop] :=
  ⟨(scheduler_edge_trigger.1 false false).2.2.2 [] ⟨0, 0, 0, 0⟩ rfl,
   scheduler_edge_trigger.2 2 3 2 (by decide) (by decide)⟩

/-- Claim C3 counterexample: a tick whose alarm list holds one enabled
alarm with no `hour`/`min`/`days` fields does not complete as "no alarm
matched" (`.ok false`) — `datetime.time(None, None)` raises `TypeError`,
which nothing in `run` catches. -/
theorem evalAlarms_malformed_raises :
    evalAlarms ⟨0, 8, 0, 0⟩ [JVal.obj [("on", JVal.bool true)]] =
      .error PyErr.typeError ∧
    evalAlarms ⟨0, 8, 0, 0⟩ [JVal.obj [("on", JVal.bool true)]] ≠ .ok false :=
  ⟨rfl, fun h => nomatch h⟩

/-- Claim C3 (amended): at every wall-clock instant, a tick over an alarm
list containing an enabled alarm with missing `hour`/`min` fields raises
`TypeError`, and the scheduler loop halts with that exception on the very
tick it occurs — however many ticks were still pending — instead of
treating the tick as "no alarm matched" and resuming. -/
theorem runLoop_halts_on_malformed_alarm :
    ∀ (now : Now) (rest : List Now) (last : Bool),
      evalAlarms now [JVal.obj [("on", JVal.bool true)]] = .error PyErr.typeError ∧
      runLoop [JVal.obj [("on", JVal.bool true)]] last (now :: rest) =
        .error PyErr.typeError :=
  fun _ _ _ => ⟨rfl, rfl⟩

/-- Claim C4: for every path on which `set` succeeds (every intermediate
segment present and a dict, the final parent a dict), `get` of the same
path on the updated document returns exactly the value that was set. -/
theorem get_after_set (p : List String) : ∀ (d v d' : JVal),
    setPath d p v = .ok d' → getPath d' p = .ok v := by
  induction p with
  | nil =>
    intro d v d' h
    cases d <;> simp [setPath] at h
  | cons k rest ih =>
    intro d v d' h
    cases rest with
    | nil =>
      cases d <;> simp [setPath] at h
      case obj l =>
        subst h
        simp [getPath, lookupKey_setKey]
    | cons k2 r =>
      cases d <;> simp [setPath] at h
      case obj l =>
        cases hl : lookupKey l k with
        | none => simp [hl] at h
        | some child =>
          simp [hl] at h
          cases hc : setPath child (k2 :: r) v with
          | error e => simp [hc] at h
          | ok c =>
            simp [hc] at h
            subst h
            simp [getPath, lookupKey_setKey]
            exact ih child v c hc

theorem get_after_set_witness :
    setPath (JVal.obj [("radio", JVal.obj [("playing", JVal.bool false)])])
      ["radio", "playing"] (JVal.bool true) =
      .ok (JVal.obj [("radio", JVal.obj [("playing", JVal.bool true)])]) ∧
    getPath (JVal.obj [("radio", JVal.obj [("playing", JVal.bool true)])])
      ["radio", "playing"] = .ok (JVal.bool true) :=
  ⟨rfl,
   get_after_set ["radio", "playing"]
     (JVal.obj [("radio", JVal.obj [("playing", JVal.bool false)])])
     (JVal.bool true)
     (JVal.obj [("radio", JVal.obj [("playing", JVal.bool true)])]) rfl⟩

/-- Claim C5 counterexample: when the persisted document exists but is
unreadable, `PersistentConfig.__init__` does not fall back to the default
document — only `FileNotFoundError` is caught, so the `ValueError` from
`json.load` propagates and construction fails. -/
theorem pcInit_unreadable_not_default :
    pcInit LoadResult.unreadable = .error PyErr.valueError ∧
    pcInit LoadResult.unreadable ≠ .ok (DEFAULT_CONFIG, [DEFAULT_CONFIG]) :=
  ⟨rfl, fun h => nomatch h⟩

/-- Claim C5 (amended): on construction, if no persisted document exists
(or the file parses to JSON `null`) the in-memory document becomes the
built-in default (two example alarms, playback intent false) and is
immediately persisted; a readable non-null document is kept and
re-persisted as-is; an unreadable document makes construction raise
`ValueError` instead of falling back to the default. -/
theorem pcInit_cases :
    pcInit LoadResult.notFound = .ok (DEFAULT_CONFIG, [DEFAULT_CONFIG]) ∧
    pcInit LoadResult.unreadable = .error PyErr.valueError ∧
    pcInit (LoadResult.ok JVal.null) = .ok (DEFAULT_CONFIG, [DEFAULT_CONFIG]) ∧
    ∀ d : JVal, d.isNull = false → pcInit (LoadResult.ok d) = .ok (d, [d]) :=
  ⟨rfl, rfl, rfl, fun d h => by simp [pcInit, h]⟩

theorem pcInit_cases_witness :
    pcInit (LoadResult.ok (JVal.bool true)) = .ok (JVal.bool true, [JVal.bool true]) :=
  pcInit_cases.2.2.2 (JVal.bool true) rfl

/-- Claim C6: the playback controller is idempotent and holds at most one
session — `start_playing` launches only when no session is alive and is a
no-op otherwise, so two consecutive starts leave exactly one live
session; `stop_playing` terminates the session when one is active (the
process is no longer alive afterwards, leaving zero live sessions), is a
no-op rather than an error on an inactive controller, and a second stop
changes nothing. -/
theorem radio_start_stop_idempotent :
    ∀ s : RadioState,
      (is_playing s = true → start_playing s = s) ∧
      (is_playing s = false → start_playing s = { process := some true }) ∧
      liveSessions (start_playing (start_playing s)) = 1 ∧
      start_playing (start_playing s) = start_playing s ∧
      (is_playing s = true → stop_playing s = { process := some false }) ∧
      (is_playing s = false → stop_playing s = s) ∧
      liveSessions (stop_playing s) = 0 ∧
      stop_playing (stop_playing s) = stop_playing s := by
  intro s
  obtain ⟨p⟩ := s
  rcases p with _ | b
  · decide
  · cases b <;> decide

theorem radio_start_stop_idempotent_witness :
    start_playing { process := none } = { process := some true } ∧
    liveSessions (start_playing (start_playing { process := none })) = 1 ∧
    stop_playing { process := some true } = { process := some false } ∧
    stop_playing { process := none } = { process := none } :=
  ⟨(radio_start_stop_idempotent ⟨none⟩).2.1 rfl,
   (radio_start_stop_idempotent ⟨none⟩).2.2.1,
   (radio_start_stop_idempotent ⟨some true⟩).2.2.2.2.1 rfl,
   (radio_start_stop_idempotent ⟨none⟩).2.2.2.2.2.1 rfl⟩

/-- Claim C7 counterexample: with a dead playback process but persisted
intent `true`, the `status` route answers `{"status": "stopped"}` — the
body has no `isPlaying` key at all and its value follows the live process
state, not the persisted intent. -/
theorem radio_status_ignores_intent :
    radio_on_get ⟨⟨some false⟩, true⟩ "status" =
      .ok (JVal.obj [("status", JVal.str "stopped")], ⟨⟨some false⟩, true⟩) ∧
    lookupKey [("status", JVal.str "stopped")] "isPlaying" = none :=
  ⟨rfl, rfl⟩

/-- Claim C7 (amended): the GET `status` route returns a body
`{"status": "started"|"stopped"}` determined solely by the playback
process's live state (`Radio.is_playing`), unchanged for every value of
the persisted intent, and leaves the state untouched. -/
theorem radio_status_reflects_live :
    ∀ (r : RadioState) (i : Bool),
      radio_on_get ⟨r, i⟩ "status" =
        .ok (JVal.obj
          [("status", JVal.str (if is_playing r then "started" else "stopped"))], ⟨r, i⟩) :=
  fun _ _ => rfl

/-- Claim C8: `on_post` for a new alarm with a *missing* `name` field
raises `KeyError` (the code subscripts `new_alarm['name']` before any
presence check), not a 400; with an empty `days` list (or a field
present as `null`) it executes `raise falcon.HTTP_400`, raising a plain
string — a `TypeError` in Python 3, again not a 400 response; a fully
populated alarm is appended to the list and persisted. -/
theorem on_post_new_error_modes :
    on_post_new (JVal.obj [("Alarm", JVal.obj [("on", JVal.bool true),
      ("days", JVal.arr [JVal.num 1]), ("hour", JVal.num 7), ("min", JVal.num 0)])]) [] =
      .error (PyErr.keyError "name") ∧
    on_post_new (JVal.obj [("Alarm", JVal.obj [("name", JVal.str "t"),
      ("on", JVal.bool true), ("days", JVal.arr []), ("hour", JVal.num 7),
      ("min", JVal.num 0)])]) [] = .error PyErr.raiseNonException ∧
    on_post_new (JVal.obj [("Alarm", JVal.obj [("name", JVal.str "t"),
      ("on", JVal.bool true), ("days", JVal.arr [JVal.num 1]), ("hour", JVal.num 7),
      ("min", JVal.num 0)])]) [] =
      .ok [JVal.obj [("name", JVal.str "t"), ("on", JVal.bool true),
        ("days", JVal.arr [JVal.num 1]), ("hour", JVal.num 7), ("min", JVal.num 0)]] :=
  ⟨rfl, rfl, rfl⟩

theorem is_playing_start (r : RadioState) : is_playing (start_playing r) = true := by
  rw [start_playing]
  split
  · assumption
  · rfl

/-- Claim C9: `RadioResource.__init__` reads the persisted intent at path
`radio/playing`; when it is `true` it immediately commands
`start_playing` (so the resulting controller is playing), and when it is
`false` it issues no playback command and leaves the controller as it
was. -/
theorem radio_resource_init_resumes :
    ∀ (cfg : JVal) (r : RadioState) (b : Bool),
      getPath cfg ["radio", "playing"] = .ok (JVal.bool b) →
      radioResourceInit cfg r =
        .ok ((if b then start_playing r else r), (if b then [Cmd.start] else [])) ∧
      is_playing (if b then start_playing r else r) = (b || is_playing r) := by
  intro cfg r b h
  constructor
  · cases b <;> simp [radioResourceInit, h, truthy, exceptBind_ok]
  · cases b <;> simp [is_playing_start]

theorem radio_resource_init_resumes_witness :
    radioResourceInit DEFAULT_CONFIG { process := none } =
      .ok ((if false then start_playing { process := none } else { process := none }),
        (if false then [Cmd.start] else [])) ∧
    is_playing (if false then start_playing { process := none } else { process := none }) =
      (false || is_playing { process := none }) :=
  radio_resource_init_resumes DEFAULT_CONFIG { process := none } false rfl

theorem mkTime_ok (h m : Int) (hh0 : 0 ≤ h) (hh : h ≤ 23) (hm0 : 0 ≤ m) (hm : m ≤ 59) :
    mkTime h m = .ok (h, m) := by
  rw [mkTime, if_neg (by omega), if_neg (by omega)]

theorem mkTime_hour_out (h m : Int) (hh : 23 < h) :
    mkTime h m = .error PyErr.valueError := by
  rw [mkTime, if_pos (Or.inr hh)]

/-- Claim C10: `check_time` is total for every alarm with hour at most 22
and a valid minute — both window endpoints are valid `datetime.time`
values, so a boolean comes back — while for hour 23 and minute at least
50 the carry sets `endhour = 24` and `datetime.time(24, ...)` raises
`ValueError` instead of returning a window decision. -/
theorem check_time_totality :
    (∀ (hour minutes : Int) (l : List Int) (now : Now),
        0 ≤ hour → hour ≤ 22 → 0 ≤ minutes → minutes ≤ 59 →
        ∃ b, check_time hour minutes (JVal.arr (l.map JVal.num)) now = .ok b) ∧
    (∀ (minutes : Int) (days : JVal) (now : Now),
        50 ≤ minutes → minutes ≤ 59 →
        check_time 23 minutes days now = .error PyErr.valueError) := by
  constructor
  · intro hour minutes l now h0 h22 hm0 hm59
    have h1 : mkTime hour minutes = .ok (hour, minutes) :=
      mkTime_ok _ _ h0 (by omega) hm0 hm59
    by_cases hlt : minutes + 10 < 60
    · have h2 : mkTime hour (minutes + 10) = .ok (hour, minutes + 10) :=
        mkTime_ok _ _ (by omega) (by omega) (by omega) (by omega)
      simp only [check_time, h1, if_pos hlt, h2, exceptBind_ok]
      split
      · exact ⟨_, rfl⟩
      · exact ⟨false, rfl⟩
    · have h2 : mkTime (hour + 1) (60 - minutes + 10) = .ok (hour + 1, 60 - minutes + 10) :=
        mkTime_ok _ _ (by omega) (by omega) (by omega) (by omega)
      simp only [check_time, h1, if_neg hlt, h2, exceptBind_ok]
      split
      · exact ⟨_, rfl⟩
      · exact ⟨false, rfl⟩
  · intro minutes days now h50 h59
    have h1 : mkTime 23 minutes = .ok (23, minutes) :=
      mkTime_ok _ _ (by omega) (by omega) (by omega) (by omega)
    have hlt : ¬(minutes + 10 < 60) := by omega
    have h2 : mkTime (23 + 1) (60 - minutes + 10) = .error PyErr.valueError :=
      mkTime_hour_out _ _ (by omega)
    simp only [check_time, h1, if_neg hlt, h2, exceptBind_ok, exceptBind_err]

theorem check_time_totality_witness :
    (∃ b, check_time 7 30 (JVal.arr (List.map JVal.num [0])) ⟨0, 7, 35, 0⟩ = .ok b) ∧
    check_time 23 55 (JVal.arr []) ⟨0, 23, 59, 0⟩ = .error PyErr.valueError :=
  ⟨check_time_totality.1 7 30 [0] ⟨0, 7, 35, 0⟩ (by decide) (by decide) (by decide)
     (by decide),
   check_time_totality.2 55 (JVal.arr []) ⟨0, 23, 59, 0⟩ (by decide) (by decide)⟩

end RpiRadioAlarm
